import Mathlib

/-!
# Verification of the Foodie conversational-assistant core

A shallow embedding, in Lean 4, of the core pipeline of the Foodie
repository:

* `convo.py` — deterministic intent extraction (`simple_nlu`,
  `_extract_budget`) and session scoring (`update_context_and_score`);
* `convo_llm.py` — the service-backed NLU / reply generation with their
  deterministic fallbacks (`_fallback_nlu`, `_fallback_reply`);
* `recommender.py` — preference ranking (`recommend_by_preferences`) and
  the collaborative variant (`collaborative_recommend`).

Modelling conventions:

* Python strings are Lean `String`s; Python's substring test `pat in txt`
  is `containsStr txt pat`; `str.lower()` is `lowerStr` (faithful on the
  ASCII range, which is all the fixed keyword vocabulary uses).
* Python numbers (ints and floats) are modelled as `ℤ` / `ℚ`; scores are
  integers in the source, prices and budgets are modelled as exact
  rationals.
* The two regular expressions of `_extract_budget`
  (`under\s*\$?\s*(\d+(?:\.\d+)?)` and `\$\s*(\d+(?:\.\d+)?)`) and the
  fallback pattern `\$(\d+)` of `convo_llm._to_float` are compiled by hand
  into leftmost-match scanners over the character list, with the same
  greedy semantics (these patterns never need backtracking).
* The external LLM service call (`_call_groq`) is I/O; a whole
  `try:`-block whose only failure source is that call is represented by an
  `Except Unit α` argument: `.ok v` is the value the block would produce,
  `.error ()` is "some exception was raised in the block".
* The SQLite catalog is passed explicitly as a `List Product`;
  `fetch_products` becomes a `List.filter`, `ORDER BY ... DESC` becomes a
  stable `mergeSort` with a descending comparator (Python's
  `sorted(..., reverse=True)` is also stable).
-/

namespace Foodie

/-! ## String utilities -/

/-- Does the pattern (first argument) occur at the start of the text
(second argument)?  Mirrors matching a Python string at one position. -/
def matchesAt : List Char → List Char → Bool
  | [], _ => true
  | _ :: _, [] => false
  | p :: ps, c :: cs => p == c && matchesAt ps cs

/-- Does the pattern occur anywhere in the text?  (`pat in txt`). -/
def occursIn (pat : List Char) : List Char → Bool
  | [] => matchesAt pat []
  | c :: cs => matchesAt pat (c :: cs) || occursIn pat cs

/-- Python's `pat in hay` substring containment. -/
def containsStr (hay pat : String) : Bool := occursIn pat.data hay.data

/-- ASCII lower-casing of one character, as Python `str.lower()` does on
the ASCII range. -/
def lowerChar (c : Char) : Char :=
  if 'A' ≤ c ∧ c ≤ 'Z' then Char.ofNat (c.toNat + 32) else c

/-- Python `str.lower()` (faithful on ASCII, which covers every fixed
keyword the extractors use). -/
def lowerStr (s : String) : String := String.mk (s.data.map lowerChar)

/-- Numeric value of a digit run (`int("...")` semantics). -/
def digitsVal (ds : List Char) : ℕ :=
  ds.foldl (fun a c => 10 * a + (c.toNat - 48)) 0

/-- Python's regex `\s` on the ASCII range. -/
def isPySpace (c : Char) : Bool :=
  c == ' ' || c == '\t' || c == '\n' || c == '\r' || c == '\x0b' || c == '\x0c'

/-- Consume `\s*`. -/
def skipSpaces (cs : List Char) : List Char := cs.dropWhile isPySpace

/-- Match `(\d+(?:\.\d+)?)` at the head of `cs` and convert the captured
text with `float(...)`: an integer part, optionally followed by a dot and
a fractional digit run. -/
def parseNumber (cs : List Char) : Option ℚ :=
  let p := cs.span Char.isDigit
  if p.1.isEmpty then none
  else
    match p.2 with
    | '.' :: t =>
      let q := t.span Char.isDigit
      if q.1.isEmpty then some (digitsVal p.1 : ℚ)
      else some ((digitsVal p.1 : ℚ) + (digitsVal q.1 : ℚ) / (10 : ℚ) ^ q.1.length)
    | _ => some (digitsVal p.1 : ℚ)

/-! ## `convo.py` — budget regexes

`_extract_budget` runs `re.search(r"under\s*\$?\s*(\d+(?:\.\d+)?)", txt)`
and, when that fails, `re.search(r"\$\s*(\d+(?:\.\d+)?)", txt)`.
`re.search` returns the leftmost match; the scanners below try each start
position from the left. -/

/-- Match `under\s*\$?\s*(\d+(?:\.\d+)?)` starting exactly at `cs`. -/
def matchUnderAt (cs : List Char) : Option ℚ :=
  if matchesAt "under".data cs then
    let r1 := skipSpaces (cs.drop 5)
    let r2 := match r1 with
      | c :: t => if c == '$' then t else c :: t
      | [] => []
    parseNumber (skipSpaces r2)
  else none

/-- Leftmost match of the `under` budget pattern. -/
def searchUnder : List Char → Option ℚ
  | [] => none
  | c :: cs =>
    match matchUnderAt (c :: cs) with
    | some v => some v
    | none => searchUnder cs

/-- Match `\$\s*(\d+(?:\.\d+)?)` starting exactly at `cs`. -/
def matchDollarAt : List Char → Option ℚ
  | c :: t => if c == '$' then parseNumber (skipSpaces t) else none
  | [] => none

/-- Leftmost match of the bare-`$` budget pattern. -/
def searchDollar : List Char → Option ℚ
  | [] => none
  | c :: cs =>
    match matchDollarAt (c :: cs) with
    | some v => some v
    | none => searchDollar cs

/-- `convo._extract_budget`: first the `under ...` pattern, then the bare
`$...` pattern, else `None`. -/
def extract_budget (txt : String) : Option ℚ :=
  match searchUnder txt.data with
  | some v => some v
  | none => searchDollar txt.data

/-! ## `convo.py` — keyword tables and `simple_nlu` -/

def DIETARY_KEYWORDS : List String :=
  ["vegan", "vegetarian", "gluten_free", "dairy_free", "nut_free"]

def MOOD_KEYWORDS : List String :=
  ["adventurous", "comfort", "healthy", "indulgent", "quick", "refreshing",
   "cozy", "party"]

def SPICY_WORDS : List String := ["spicy", "hot", "chili", "jalape"]

/-- ASCII apostrophe. -/
def apos : Char := '\x27'

/-- The keyword `i\x27ll take` of the order-intent list. -/
def ILL_TAKE : String :=
  String.mk ['i', apos, 'l', 'l', ' ', 't', 'a', 'k', 'e']

def ORDER_WORDS : List String :=
  ["order", "add to cart", ILL_TAKE, "i will take", "buy"]

def ENTHUSIASM_WORDS : List String := ["love", "perfect", "amazing", "delicious"]

/-- The slot set built by `simple_nlu`.  The Python dict holds a key only
when the slot was detected; absence of a key is `none` / `[]` / `false`
here.  (`budget` is stored only when truthy, i.e. non-`None` and ≠ 0;
boolean slots are stored only as `True`; `dietary` is created only when
non-empty; `mood` holds the matched keyword.) -/
structure Nlu where
  budget : Option ℚ := none
  dietary : List String := []
  spicy : Bool := false
  order : Bool := false
  enthusiasm : Bool := false
  question : Bool := false
  mood : Option String := none
deriving DecidableEq

/-- The `for mood in [...]: if mood in txt: out['mood']=mood; break` loop
of `simple_nlu`. -/
def moodScan (txt : String) : List String → Option String
  | [] => none
  | m :: ms => if containsStr txt m then some m else moodScan txt ms

/-- `convo.simple_nlu`. -/
def simple_nlu (text : String) : Nlu :=
  let txt := lowerStr text
  { budget :=
      match extract_budget txt with
      | some b => if b = 0 then none else some b
      | none => none
    dietary := DIETARY_KEYWORDS.filter (fun d => containsStr txt d)
    spicy := SPICY_WORDS.any (fun w => containsStr txt w)
    order := ORDER_WORDS.any (fun w => containsStr txt w)
    enthusiasm := ENTHUSIASM_WORDS.any (fun w => containsStr txt w)
    question := containsStr txt "?"
    mood := moodScan txt MOOD_KEYWORDS }

/-! ## `convo.py` — context and scoring -/

/-- `convo.ENGAGEMENT_FACTORS` (a dict in the source; every key the code
looks up is listed, unknown keys default to 0 and are never used). -/
def ENGAGEMENT_FACTORS : String → ℤ
  | "specific_preferences" => 15
  | "dietary_restrictions" => 10
  | "budget_mention" => 5
  | "mood_indication" => 20
  | "question_asking" => 10
  | "enthusiasm_words" => 8
  | "price_inquiry" => 25
  | "order_intent" => 30
  | "nutrient_preference" => 12
  | _ => 0

/-- `convo.NEGATIVE_FACTORS` — defined in the source but never read by any
code path. -/
def NEGATIVE_FACTORS : String → ℤ
  | "hesitation" => -10
  | "budget_concern" => -15
  | "dietary_conflict" => -20
  | "rejection" => -25
  | "delay_response" => -5
  | _ => 0

/-- One history entry appended by `update_context_and_score`. -/
structure Turn where
  role : String
  text : String
  nlu : Nlu
  score_delta : ℤ
deriving DecidableEq

/-- The per-session context dict of `convo.py`.  `intents` is a dict that
no code path in `convo.py` writes after initialization; `seen_intents` is
a set, likewise only initialized. -/
structure Context where
  session_id : String
  history : List Turn
  intents : List (String × String)
  accumulated_score : ℤ
  seen_intents : List String
deriving DecidableEq

/-- `convo._init_context`.  The source draws a fresh `uuid4` when no
session id is supplied; the id is passed explicitly here. -/
def init_context (session_id : String) : Context :=
  { session_id := session_id
    history := []
    intents := []
    accumulated_score := 0
    seen_intents := [] }

/-- The clamp `max(0, min(100, x))` applied to the accumulated score. -/
def clamp (x : ℤ) : ℤ := max 0 (min 100 x)

/-- The `score_delta` accumulation of `update_context_and_score`: one
guarded addition per slot present, in source order. -/
def score_delta_of (n : Nlu) : ℤ :=
  let s : ℤ := 0
  let s := if n.mood.isSome then s + ENGAGEMENT_FACTORS "mood_indication" else s
  let s := if !n.dietary.isEmpty then
      s + ENGAGEMENT_FACTORS "dietary_restrictions" * n.dietary.length else s
  let s := if n.budget.isSome then s + ENGAGEMENT_FACTORS "budget_mention" else s
  let s := if n.question then s + ENGAGEMENT_FACTORS "question_asking" else s
  let s := if n.enthusiasm then s + ENGAGEMENT_FACTORS "enthusiasm_words" else s
  let s := if n.order then s + ENGAGEMENT_FACTORS "order_intent" else s
  let s := if n.spicy then s + ENGAGEMENT_FACTORS "specific_preferences" else s
  s

/-- `convo.update_context_and_score` on an existing context (the
`context is None` branch of the source calls `_init_context()` with a
fresh uuid first; callers model that by passing `init_context sid`).  The
unused `product_tags=None` parameter is omitted.  Returns
`(context', score_delta, accumulated_score', nlu)` as the source does. -/
def update_context_and_score (context : Context) (text : String) :
    Context × ℤ × ℤ × Nlu :=
  let nlu := simple_nlu text
  let score_delta := score_delta_of nlu
  let ctx :=
    { context with
      history := context.history ++
        [{ role := "user", text := text, nlu := nlu, score_delta := score_delta }]
      accumulated_score := clamp (context.accumulated_score + score_delta) }
  (ctx, score_delta, ctx.accumulated_score, nlu)

/-! ## `recommender.py` — products and ranking -/

/-- A product row (after `_parse_row` JSON-decodes the tag fields).
`popularity_score` defaults to 50 when missing; rows from the products
table always carry one, so it is a plain field here. -/
structure Product where
  product_id : String
  name : String
  category : String
  price : ℚ
  calories : ℤ
  popularity_score : ℚ
  mood_tags : List String
  dietary_tags : List String
  spice_level : ℕ
deriving DecidableEq

/-- The inner `score(item)` closure of `recommend_by_preferences`.
Python's `if mood:` truthiness test skips the bonus for `None` and for
the empty string; `if dietary:` skips the block for the empty list (the
added amount is 0 there anyway).  `0.2` is the exact rational 2/10. -/
def rec_score (mood : Option String) (dietary : List String)
    (nutrient : Option String) (item : Product) : ℚ :=
  let s := item.popularity_score
  let s := match mood with
    | some m => if m ≠ "" ∧ item.mood_tags.contains m then s + 25 else s
    | none => s
  let s := if !dietary.isEmpty then
      s + 12 * (dietary.countP (fun d => item.dietary_tags.contains d) : ℚ)
    else s
  let s := if nutrient = some "protein" ∧ 300 ≤ item.calories then s + 10 else s
  s - item.price * (2 / 10)

/-- The ranking step of `recommend_by_preferences`: `rows` stands for the
result of `fetch_products(where, params, limit=200)` — the candidate set
for the AND-ed WHERE clauses — and is sorted descending by `score` and
truncated.  Python's `sorted(..., key=score, reverse=True)` is a stable
sort, as is `mergeSort` with the descending comparator.  `budget` takes
part only in the SQL predicate, never in the ranking. -/
def rec_le (mood : Option String) (dietary : List String)
    (nutrient : Option String) (a b : Product) : Bool :=
  decide (rec_score mood dietary nutrient b ≤ rec_score mood dietary nutrient a)

def recommend_by_preferences (rows : List Product) (mood : Option String)
    (budget : Option ℚ) (dietary : List String) (nutrient : Option String)
    (limit : ℕ) : List Product :=
  (rows.mergeSort (rec_le mood dietary nutrient)).take limit

/-- The `ORDER BY popularity_score DESC` comparator. -/
def pop_le (a b : Product) : Bool :=
  decide (b.popularity_score ≤ a.popularity_score)

/-- `recommender.collaborative_recommend`, with the SQLite table passed
explicitly: look up the seed row by `product_id` (the `SELECT category
... WHERE product_id=?` returning no row models the unknown id); then
`SELECT * ... WHERE category=? AND product_id<>? ORDER BY popularity_score
DESC LIMIT ?`. -/
def collaborative_recommend (catalog : List Product) (product_id : String)
    (limit : ℕ) : List Product :=
  match catalog.find? (fun p => p.product_id == product_id) with
  | none => []
  | some r =>
    ((catalog.filter (fun p =>
        p.category == r.category && p.product_id != product_id)).mergeSort
      pop_le).take limit

/-! ## `convo_llm.py` — service-backed NLU and reply, with fallbacks -/

/-- The slot set returned by `parse_nlu_with_llm` / `_fallback_nlu`. -/
structure LlmNlu where
  mood : Option String
  budget : Option ℚ
  dietary : List String
  nutrient : Option String
  spicy : Bool
  question : Bool
  order : Bool
  enthusiasm : Bool
  free_text : String
deriving DecidableEq

/-- The `\$(\d+)` budget pattern of `_fallback_nlu`: the leftmost `$`
immediately followed by at least one digit; `_to_float` of the captured
digit run. -/
def matchDollarIntAt : List Char → Option ℚ
  | c :: t =>
    if c == '$' then
      let p := t.span Char.isDigit
      if p.1.isEmpty then none else some (digitsVal p.1 : ℚ)
    else none
  | [] => none

/-- Leftmost match of the `\$(\d+)` pattern. -/
def searchDollarInt : List Char → Option ℚ
  | [] => none
  | c :: cs =>
    match matchDollarIntAt (c :: cs) with
    | some v => some v
    | none => searchDollarInt cs

/-- `convo_llm._fallback_nlu`. -/
def fallback_nlu (message : String) : LlmNlu :=
  let txt := lowerStr message
  { mood := none
    budget := searchDollarInt txt.data
    dietary := if containsStr txt "vegetarian" then ["vegetarian"] else []
    nutrient := if containsStr txt "protein" then some "protein" else none
    spicy := containsStr txt "spicy"
    question := containsStr txt "?" || containsStr txt "how"
    order := ["order", "add", "buy", "take"].any (fun w => containsStr txt w)
    enthusiasm := ["love", "perfect", "amazing"].any (fun w => containsStr txt w)
    free_text := message }

/-- `convo_llm.parse_nlu_with_llm`.  The whole `try:` block — prompt
formatting, the Groq call, brace scanning, JSON repair and field coercion
— either produces a slot set or raises; it is represented by the
`attempt` argument (`.ok` = the value the block produced, `.error ()` =
some exception was raised anywhere in it, including the
`RuntimeError` for an unconfigured service).  The `except` arm returns
`_fallback_nlu(message)`. -/
def parse_nlu_with_llm (attempt : Except Unit LlmNlu) (message : String) :
    LlmNlu :=
  match attempt with
  | .ok n => n
  | .error _ => fallback_nlu message

/-- The reply record of `generate_reply_with_llm` / `_fallback_reply`. -/
structure ReplyOut where
  reply : String
  suggested : List String
  mention_spice : Bool
  debug : String
deriving DecidableEq

/-- The redacted candidate projection built as `safe_products` (the dict
comprehension keeping `product_id, name, price, spice_level,
popularity_score`). -/
structure SafeProduct where
  product_id : String
  name : String
  price : ℚ
  spice_level : ℕ
  popularity_score : ℚ
deriving DecidableEq

def safe_product (p : Product) : SafeProduct :=
  { product_id := p.product_id
    name := p.name
    price := p.price
    spice_level := p.spice_level
    popularity_score := p.popularity_score }

/-- Two-digit zero padding for the fractional part. -/
def pad2 (n : ℕ) : String := if n < 10 then "0" ++ toString n else toString n

/-- The f-string `{...:.2f}` rendering of a price, faithful for the
non-negative two-decimal prices the catalog stores. -/
def fmt2 (q : ℚ) : String :=
  let c : ℕ := (⌊q * 100⌋).toNat
  toString (c / 100) ++ "." ++ pad2 (c % 100)

/-- `convo_llm._fallback_reply` (its `context`, `user_message` and
`interest_score` parameters are never read). -/
def fallback_reply (products : List SafeProduct) : ReplyOut :=
  match products with
  | best :: _ =>
    { reply := "I found " ++ best.name ++ " for $" ++ fmt2 best.price ++
        ". Want me to add it?"
      suggested := [best.product_id]
      mention_spice := best.spice_level != 0
      debug := "fallback" }
  | [] =>
    { reply := "Tell me your food mood or budget!"
      suggested := []
      mention_spice := false
      debug := "fallback_none" }

/-- `convo_llm.generate_reply_with_llm`.  `safe_products` is computed
before the `try:` block from the first four candidates; the block itself
(prompt build, Groq call, brace scan, JSON repair, wrapped-text recovery)
is the `attempt` argument as in `parse_nlu_with_llm`; the `except` arm
returns `_fallback_reply(context, user_message, safe_products,
interest_score)`. -/
def generate_reply_with_llm (context : Context) (user_message : String)
    (products : List Product) (interest_score : ℤ)
    (attempt : Except Unit ReplyOut) : ReplyOut :=
  let safe_products := (products.take 4).map safe_product
  match attempt with
  | .ok r => r
  | .error _ => fallback_reply safe_products

/-! ## Spec-side definitions (written from the specification text, for
refinement comparisons) -/

/-- The spec claim's score formula for the ranking step (§4.3):
popularity + 25 mood bonus + 12 per satisfied dietary tag + 10 protein
bonus − 0.2·price. -/
def spec_rec_score (mood : Option String) (dietary : List String)
    (nutrient : Option String) (item : Product) : ℚ :=
  item.popularity_score
    + (match mood with
      | some m => if item.mood_tags.contains m then (25 : ℚ) else 0
      | none => 0)
    + 12 * ((dietary.filter (fun d => item.dietary_tags.contains d)).length : ℚ)
    + (if nutrient = some "protein" ∧ 300 ≤ item.calories then (10 : ℚ) else 0)
    - (2 / 10) * item.price

/-- The weight table of spec §4.2, summed over the slots present:
+20 mood, +10 per dietary tag, +5 budget, +10 question, +8 enthusiasm,
+30 order, +15 spicy. -/
def spec_turn_delta (n : Nlu) : ℤ :=
  (if n.mood.isSome then 20 else 0) + 10 * n.dietary.length
    + (if n.budget.isSome then 5 else 0) + (if n.question then 10 else 0)
    + (if n.enthusiasm then 8 else 0) + (if n.order then 30 else 0)
    + (if n.spicy then 15 else 0)

/-- Spec §4.1 fallback rule (b): dietary tags by membership test against
the full five-word vocabulary, every present term contributing. -/
def spec_fallback_dietary (message : String) : List String :=
  DIETARY_KEYWORDS.filter (fun d => containsStr (lowerStr message) d)

/-- Spec §4.1 fallback rule (g): mood as the first match in the fixed
priority order. -/
def spec_fallback_mood (message : String) : Option String :=
  MOOD_KEYWORDS.find? (fun m => containsStr (lowerStr message) m)

/-! ## Small evaluation lemmas -/

theorem EF_specific : ENGAGEMENT_FACTORS "specific_preferences" = 15 := rfl
theorem EF_dietary : ENGAGEMENT_FACTORS "dietary_restrictions" = 10 := rfl
theorem EF_budget : ENGAGEMENT_FACTORS "budget_mention" = 5 := rfl
theorem EF_mood : ENGAGEMENT_FACTORS "mood_indication" = 20 := rfl
theorem EF_question : ENGAGEMENT_FACTORS "question_asking" = 10 := rfl
theorem EF_enth : ENGAGEMENT_FACTORS "enthusiasm_words" = 8 := rfl
theorem EF_order : ENGAGEMENT_FACTORS "order_intent" = 30 := rfl

theorem score_delta_of_eq_spec (n : Nlu) :
    score_delta_of n = spec_turn_delta n := by
  unfold score_delta_of spec_turn_delta
  rw [EF_specific, EF_dietary, EF_budget, EF_mood, EF_question, EF_enth,
    EF_order]
  rcases n with ⟨b, d, sp, o, e, q, m⟩
  simp only []
  cases m <;> cases sp <;> cases o <;> cases e <;> cases q <;>
    cases b <;> rcases d with _ | ⟨x, xs⟩ <;>
      simp [List.isEmpty, Option.isSome]

theorem score_delta_of_nonneg (n : Nlu) : 0 ≤ score_delta_of n := by
  rw [score_delta_of_eq_spec]
  unfold spec_turn_delta
  have hlen : (0 : ℤ) ≤ n.dietary.length := by positivity
  split_ifs <;> omega

theorem moodScan_eq_find (txt : String) (l : List String) :
    moodScan txt l = l.find? (fun m => containsStr txt m) := by
  induction l with
  | nil => rfl
  | cons m ms ih =>
    by_cases h : containsStr txt m = true
    · simp [moodScan, List.find?, h]
    · simp only [Bool.not_eq_true] at h
      simp [moodScan, List.find?, h, ih]

/-! ## Claims about `convo.py` -/

/-- C1: for every session context whose accumulated score is in [0,100]
and every message, after `update_context_and_score` the new accumulated
score equals `clamp(previous + scoreDelta, 0, 100)`, and the clamp lands
in [0,100] for every score and every delta, regardless of sign or
magnitude. -/
theorem C1_score_clamped (ctx : Context) (msg : String)
    (h0 : 0 ≤ ctx.accumulated_score) (h1 : ctx.accumulated_score ≤ 100) :
    ((update_context_and_score ctx msg).2.2.1 =
      clamp (ctx.accumulated_score + (update_context_and_score ctx msg).2.1))
    ∧ 0 ≤ (update_context_and_score ctx msg).2.2.1
    ∧ (update_context_and_score ctx msg).2.2.1 ≤ 100
    ∧ (∀ s d : ℤ, 0 ≤ clamp (s + d) ∧ clamp (s + d) ≤ 100) := by
  refine ⟨rfl, ?_, ?_, ?_⟩
  · show 0 ≤ clamp _
    unfold clamp; omega
  · show clamp _ ≤ 100
    unfold clamp; omega
  · intro s d; unfold clamp; constructor <;> omega

theorem C1_score_clamped_witness :
    (0 ≤ (init_context "s1").accumulated_score
      ∧ (init_context "s1").accumulated_score ≤ 100)
    ∧ (((update_context_and_score (init_context "s1") "hello").2.2.1 =
        clamp ((init_context "s1").accumulated_score +
          (update_context_and_score (init_context "s1") "hello").2.1))
      ∧ 0 ≤ (update_context_and_score (init_context "s1") "hello").2.2.1
      ∧ (update_context_and_score (init_context "s1") "hello").2.2.1 ≤ 100
      ∧ (∀ s d : ℤ, 0 ≤ clamp (s + d) ∧ clamp (s + d) ≤ 100)) :=
  ⟨⟨by decide, by decide⟩,
    C1_score_clamped (init_context "s1") "hello" (by decide) (by decide)⟩

/-- C3: the `score_delta` of every turn is the weight-table sum over the
slots present (+20 mood, +10 per dietary tag, +5 budget, +10 question,
+8 enthusiasm, +30 order, +15 spicy); in particular a first message of a
fresh session with a `comfort` mood keyword and a question mark yields
delta 30 and accumulated score 30. -/
theorem C3_score_delta_weights :
    (∀ (ctx : Context) (msg : String),
      (update_context_and_score ctx msg).2.1 = spec_turn_delta (simple_nlu msg))
    ∧ (update_context_and_score (init_context "s") "any comfort food today?").2.1 = 30
    ∧ (update_context_and_score (init_context "s") "any comfort food today?").2.2.1 = 30 := by
  refine ⟨fun ctx msg => ?_, by decide, by decide⟩
  show score_delta_of (simple_nlu msg) = _
  exact score_delta_of_eq_spec _

/-- C5: mood extraction is priority-ordered and single-valued: the mood
slot (an `Option`, hence at most one value) is the first element of the
fixed priority list whose keyword occurs in the lower-cased message; a
message containing both `cozy` and `adventurous` yields `adventurous`. -/
theorem C5_mood_priority :
    (∀ msg : String,
      (simple_nlu msg).mood =
        MOOD_KEYWORDS.find? (fun m => containsStr (lowerStr msg) m))
    ∧ (simple_nlu "feeling cozy and adventurous").mood = some "adventurous"
    ∧ containsStr (lowerStr "feeling cozy and adventurous") "cozy" = true := by
  refine ⟨fun msg => ?_, by decide, by decide⟩
  show moodScan (lowerStr msg) MOOD_KEYWORDS = _
  exact moodScan_eq_find _ _

/-- C9: every call of `update_context_and_score` appends exactly one Turn
(role `user`, the raw message, the extracted slots, the delta) to the
history and leaves `session_id`, `intents` and `seen_intents` unchanged —
in particular `intents` is never written during scoring. -/
theorem C9_frame_effect (ctx : Context) (text : String) :
    ((update_context_and_score ctx text).1.history =
      ctx.history ++
        [Turn.mk "user" text (simple_nlu text) (score_delta_of (simple_nlu text))])
    ∧ (update_context_and_score ctx text).1.session_id = ctx.session_id
    ∧ (update_context_and_score ctx text).1.intents = ctx.intents
    ∧ (update_context_and_score ctx text).1.seen_intents = ctx.seen_intents :=
  ⟨rfl, rfl, rfl, rfl⟩

/-- C10: the score delta of every message is non-negative (the
negative-weight table is never triggered by the current extractor), so
from any in-range score the accumulated score never decreases across a
call. -/
theorem C10_delta_nonneg (ctx : Context) (msg : String)
    (h : ctx.accumulated_score ≤ 100) :
    0 ≤ (update_context_and_score ctx msg).2.1
    ∧ ctx.accumulated_score ≤ (update_context_and_score ctx msg).1.accumulated_score := by
  have hd : 0 ≤ score_delta_of (simple_nlu msg) := score_delta_of_nonneg _
  refine ⟨hd, ?_⟩
  show ctx.accumulated_score ≤ clamp (ctx.accumulated_score + score_delta_of (simple_nlu msg))
  unfold clamp
  omega

/-! ## Claim C4 — budget extraction -/

theorem matchUnderAt_of_not_matches {cs : List Char}
    (h : matchesAt "under".data cs = false) : matchUnderAt cs = none := by
  unfold matchUnderAt
  simp [h]

theorem searchUnder_of_not_occurs {cs : List Char}
    (h : occursIn "under".data cs = false) : searchUnder cs = none := by
  induction cs with
  | nil => rfl
  | cons c cs ih =>
    rw [occursIn, Bool.or_eq_false_iff] at h
    rw [searchUnder, matchUnderAt_of_not_matches h.1, ih h.2]

theorem searchDollar_of_not_occurs {cs : List Char}
    (h : occursIn ['$'] cs = false) : searchDollar cs = none := by
  induction cs with
  | nil => rfl
  | cons c cs ih =>
    rw [occursIn, Bool.or_eq_false_iff] at h
    have h1 : (c == '$') = false := by
      have := h.1
      rw [matchesAt] at this
      simpa [matchesAt, BEq.comm] using this
    rw [searchDollar, matchDollarAt, h1, ih h.2]
    simp

/-- C4 (as frozen) is false in both directions: the message
`"money talks: $5 then $12"` contains `"$12"` yet its budget slot is 5
(the regex takes the leftmost match), and the message
`"anything under 12"` contains no `"$"` at all yet its budget slot is 12
(the `$` in `under\s*\$?\s*(\d+)` is optional). -/
theorem C4_counterexample :
    (containsStr (lowerStr "money talks: $5 then $12") "$12" = true
      ∧ (simple_nlu "money talks: $5 then $12").budget = some 5)
    ∧ (containsStr (lowerStr "anything under 12") "$" = false
      ∧ (simple_nlu "anything under 12").budget = some 12) := by
  refine ⟨⟨by decide, by decide⟩, ⟨by decide, by decide⟩⟩

/-- C4 (amended): the messages `"under $12"` and `"$12"` yield budget
12.0 (general messages take the leftmost pattern match, so an earlier
dollar amount wins); every message whose lower-casing contains neither
the substring `"under"` nor a `"$"` has no budget slot. -/
theorem C4_budget_extraction :
    ((simple_nlu "under $12").budget = some 12)
    ∧ ((simple_nlu "$12").budget = some 12)
    ∧ (∀ msg : String,
        containsStr (lowerStr msg) "under" = false →
        containsStr (lowerStr msg) "$" = false →
        (simple_nlu msg).budget = none) := by
  refine ⟨by decide, by decide, fun msg h1 h2 => ?_⟩
  unfold containsStr at h1 h2
  have hb : extract_budget (lowerStr msg) = none := by
    unfold extract_budget
    rw [searchUnder_of_not_occurs h1]
    exact searchDollar_of_not_occurs h2
  show (match extract_budget (lowerStr msg) with
    | some b => if b = 0 then none else some b
    | none => none) = none
  rw [hb]

theorem C4_budget_extraction_witness :
    (containsStr (lowerStr "plain greeting") "under" = false
      ∧ containsStr (lowerStr "plain greeting") "$" = false)
    ∧ (simple_nlu "plain greeting").budget = none :=
  ⟨⟨by decide, by decide⟩,
    C4_budget_extraction.2.2 "plain greeting" (by decide) (by decide)⟩

theorem C10_delta_nonneg_witness :
    ((init_context "s2").accumulated_score ≤ 100)
    ∧ (0 ≤ (update_context_and_score (init_context "s2") "i love spicy food").2.1
      ∧ (init_context "s2").accumulated_score ≤
        (update_context_and_score (init_context "s2") "i love spicy food").1.accumulated_score) :=
  ⟨by decide, C10_delta_nonneg (init_context "s2") "i love spicy food" (by decide)⟩

/-! ## Claim C2 — NLU fallback on service failure -/

/-- C2 (as frozen) is false: the code's `_fallback_nlu` tests only the
single keyword `vegetarian`, not the full five-word vocabulary, and never
sets a mood.  On the message `"vegan dishes please"` the claim's rules
yield the dietary set `["vegan"]` but the code yields `[]`; on
`"feeling adventurous"` the claim's rules yield mood `adventurous` but
the code yields no mood. -/
theorem C2_counterexample :
    ((parse_nlu_with_llm (Except.error ()) "vegan dishes please").dietary = []
      ∧ spec_fallback_dietary "vegan dishes please" = ["vegan"])
    ∧ ((parse_nlu_with_llm (Except.error ()) "feeling adventurous").mood = none
      ∧ spec_fallback_mood "feeling adventurous" = some "adventurous") := by
  refine ⟨⟨by decide, by decide⟩, ⟨by decide, by decide⟩⟩

/-- C2 (amended): whenever any exception is raised in the service-backed
path, `parse_nlu_with_llm` returns the deterministic `_fallback_nlu`
result — no exception escapes — but that fallback lower-cases the message
and tests dietary membership against the reduced vocabulary
`["vegetarian"]` only, and never sets a mood. -/
theorem C2_fallback_on_error (message : String) (e : Unit) :
    parse_nlu_with_llm (Except.error e) message = fallback_nlu message
    ∧ (fallback_nlu message).mood = none
    ∧ (fallback_nlu message).dietary =
        (["vegetarian"] : List String).filter
          (fun d => containsStr (lowerStr message) d)
    ∧ (fallback_nlu message).free_text = message := by
  refine ⟨rfl, rfl, ?_, rfl⟩
  show (if containsStr (lowerStr message) "vegetarian" then ["vegetarian"] else [])
      = _
  by_cases h : containsStr (lowerStr message) "vegetarian" = true
  · simp [h, List.filter]
  · simp only [Bool.not_eq_true] at h
    simp [h, List.filter]

/-! ## Claim C7 — reply fallback on service failure -/

theorem fmt2_eval : fmt2 (899 / 100 : ℚ) = "8.99" := by
  have h : ((899 : ℚ) / 100) * 100 = ((899 : ℕ) : ℚ) := by push_cast; ring
  simp [fmt2, h, Int.floor_natCast, pad2]
  rfl

/-- C7: whenever any exception is raised during service-backed reply
generation, `generate_reply_with_llm` returns the deterministic fallback
without raising: with a non-empty candidate list the reply references the
first candidate's name and its price formatted to two decimals,
`suggested` is the singleton of that candidate's id, and `mention_spice`
is true exactly when its spice level is positive; with no candidates a
generic mood/budget prompt is returned with `suggested = []` and
`mention_spice = false`. -/
theorem C7_reply_fallback (ctx : Context) (msg : String) (score : ℤ)
    (products : List Product) (e : Unit) :
    (∀ best rest, products = best :: rest →
      generate_reply_with_llm ctx msg products score (Except.error e) =
        ReplyOut.mk
          ("I found " ++ best.name ++ " for $" ++ fmt2 best.price ++
            ". Want me to add it?")
          [best.product_id] (best.spice_level != 0) "fallback"
      ∧ ((best.spice_level != 0) = true ↔ 0 < best.spice_level))
    ∧ (products = [] →
      generate_reply_with_llm ctx msg products score (Except.error e) =
        ReplyOut.mk "Tell me your food mood or budget!" [] false
          "fallback_none") := by
  constructor
  · intro best rest h
    subst h
    refine ⟨rfl, ?_⟩
    cases best.spice_level <;> simp
  · intro h
    subst h
    rfl

/-- The candidate of end-to-end scenario 3 of the spec. -/
def chicken_fried_rice : Product :=
  { product_id := "R001"
    name := "Chicken Fried Rice"
    category := "rice"
    price := 899 / 100
    calories := 520
    popularity_score := 85
    mood_tags := []
    dietary_tags := []
    spice_level := 3 }

theorem C7_reply_fallback_witness :
    ([chicken_fried_rice] = chicken_fried_rice :: ([] : List Product))
    ∧ (generate_reply_with_llm (init_context "s4") "what do you have?"
          [chicken_fried_rice] 70 (Except.error ()) =
        ReplyOut.mk
          ("I found " ++ chicken_fried_rice.name ++ " for $" ++
            fmt2 chicken_fried_rice.price ++ ". Want me to add it?")
          [chicken_fried_rice.product_id]
          (chicken_fried_rice.spice_level != 0) "fallback"
      ∧ ((chicken_fried_rice.spice_level != 0) = true
          ↔ 0 < chicken_fried_rice.spice_level)) :=
  ⟨rfl, (C7_reply_fallback (init_context "s4") "what do you have?" 70
      [chicken_fried_rice] ()).1 chicken_fried_rice [] rfl⟩

/-! ## Claim C6 — ranking -/

theorem rec_score_eq_spec (mood : Option String) (dietary : List String)
    (nutrient : Option String) (item : Product) (hm : mood ≠ some "") :
    rec_score mood dietary nutrient item
      = spec_rec_score mood dietary nutrient item := by
  have hcount : (List.countP (fun d => item.dietary_tags.contains d) dietary : ℚ)
      = ((List.filter (fun d => item.dietary_tags.contains d) dietary).length : ℚ) := by
    rw [List.countP_eq_length_filter]
  cases mood with
  | none =>
    simp only [rec_score, spec_rec_score, hcount]
    rcases dietary with _ | ⟨d, ds⟩
    · simp only [List.isEmpty, Bool.not_true, List.filter, List.length]
      split_ifs <;> push_cast <;> ring
    · simp only [List.isEmpty, Bool.not_false, if_true]
      split_ifs <;> push_cast <;> ring
  | some m =>
    have hm' : ¬ m = "" := by
      intro h
      exact hm (by rw [h])
    simp only [rec_score, spec_rec_score, hcount, hm', ne_eq,
      not_false_eq_true, true_and]
    rcases dietary with _ | ⟨d, ds⟩
    · simp only [List.isEmpty, Bool.not_true, List.filter, List.length]
      split_ifs <;> push_cast <;> ring
    · simp only [List.isEmpty, Bool.not_false, if_true]
      split_ifs <;> push_cast <;> ring

theorem rec_le_trans (mood : Option String) (dietary : List String)
    (nutrient : Option String) :
    ∀ a b c : Product, rec_le mood dietary nutrient a b = true →
      rec_le mood dietary nutrient b c = true →
      rec_le mood dietary nutrient a c = true := by
  intro a b c h1 h2
  simp only [rec_le, decide_eq_true_eq] at h1 h2 ⊢
  exact le_trans h2 h1

theorem rec_le_total (mood : Option String) (dietary : List String)
    (nutrient : Option String) :
    ∀ a b : Product, (rec_le mood dietary nutrient a b
      || rec_le mood dietary nutrient b a) = true := by
  intro a b
  simp only [rec_le, Bool.or_eq_true, decide_eq_true_eq]
  exact le_total _ _

/-- C6: the ranking step is a pure deterministic function — the output is
the candidate list sorted in descending order of the spec's score formula
(popularity + 25 mood bonus + 12 per satisfied dietary tag + 10 protein
bonus − 0.2·price) and truncated so its length never exceeds `limit`.
(The `mood ≠ some ""` hypothesis reflects that Python's `if mood:`
truthiness treats the empty string as "no mood requested".) -/
theorem C6_ranking (rows : List Product) (mood : Option String)
    (budget : Option ℚ) (dietary : List String) (nutrient : Option String)
    (limit : ℕ) (hm : mood ≠ some "") :
    (recommend_by_preferences rows mood budget dietary nutrient limit).length ≤ limit
    ∧ ∃ full : List Product, full.Perm rows
        ∧ full.Pairwise (fun a b =>
            spec_rec_score mood dietary nutrient b
              ≤ spec_rec_score mood dietary nutrient a)
        ∧ recommend_by_preferences rows mood budget dietary nutrient limit
            = full.take limit := by
  constructor
  · exact List.length_take_le _ _
  · refine ⟨rows.mergeSort (rec_le mood dietary nutrient),
      List.mergeSort_perm _ _, ?_, rfl⟩
    have hs := @List.sorted_mergeSort Product (rec_le mood dietary nutrient)
      (rec_le_trans mood dietary nutrient) (rec_le_total mood dietary nutrient)
      rows
    refine hs.imp ?_
    intro a b hab
    simp only [rec_le, decide_eq_true_eq] at hab
    rw [← rec_score_eq_spec mood dietary nutrient a hm,
      ← rec_score_eq_spec mood dietary nutrient b hm]
    exact hab

/-- Catalog rows used by the witnesses. -/
def margherita : Product :=
  { product_id := "P001"
    name := "Margherita Pizza"
    category := "italian"
    price := 12
    calories := 800
    popularity_score := 90
    mood_tags := ["comfort"]
    dietary_tags := ["vegetarian"]
    spice_level := 1 }

def kale_bowl : Product :=
  { product_id := "P002"
    name := "Kale Power Bowl"
    category := "italian"
    price := 11
    calories := 350
    popularity_score := 70
    mood_tags := ["healthy"]
    dietary_tags := ["vegan", "gluten_free"]
    spice_level := 0 }

theorem C6_ranking_witness :
    ((some "comfort" : Option String) ≠ some "")
    ∧ ((recommend_by_preferences [margherita, kale_bowl] (some "comfort")
          (some 15) ["vegetarian"] none 1).length ≤ 1
      ∧ ∃ full : List Product, full.Perm [margherita, kale_bowl]
          ∧ full.Pairwise (fun a b =>
              spec_rec_score (some "comfort") ["vegetarian"] none b
                ≤ spec_rec_score (some "comfort") ["vegetarian"] none a)
          ∧ recommend_by_preferences [margherita, kale_bowl] (some "comfort")
              (some 15) ["vegetarian"] none 1 = full.take 1) :=
  ⟨by decide,
    C6_ranking [margherita, kale_bowl] (some "comfort") (some 15)
      ["vegetarian"] none 1 (by decide)⟩

/-! ## Claim C8 — collaborative recommend -/

theorem pop_le_trans :
    ∀ a b c : Product, pop_le a b = true → pop_le b c = true →
      pop_le a c = true := by
  intro a b c h1 h2
  simp only [pop_le, decide_eq_true_eq] at h1 h2 ⊢
  exact le_trans h2 h1

theorem pop_le_total : ∀ a b : Product, (pop_le a b || pop_le b a) = true := by
  intro a b
  simp only [pop_le, Bool.or_eq_true, decide_eq_true_eq]
  exact le_total _ _

/-- C8: `collaborative_recommend` on a product id not present in the
catalog returns the empty list rather than raising; on a known id it
returns at most `limit` products of the seed's category, excluding the
seed's id, ordered descending by popularity score. -/
theorem C8_collaborative (catalog : List Product) (pid : String) (limit : ℕ) :
    (catalog.find? (fun p => p.product_id == pid) = none →
      collaborative_recommend catalog pid limit = [])
    ∧ (∀ r, catalog.find? (fun p => p.product_id == pid) = some r →
        (collaborative_recommend catalog pid limit).length ≤ limit
        ∧ (collaborative_recommend catalog pid limit).Pairwise
            (fun a b => b.popularity_score ≤ a.popularity_score)
        ∧ ∀ p ∈ collaborative_recommend catalog pid limit,
            p.category = r.category ∧ p.product_id ≠ pid) := by
  constructor
  · intro h
    unfold collaborative_recommend
    rw [h]
  · intro r h
    have hre : collaborative_recommend catalog pid limit
        = ((catalog.filter (fun p =>
            p.category == r.category && p.product_id != pid)).mergeSort
          pop_le).take limit := by
      unfold collaborative_recommend
      rw [h]
    refine ⟨?_, ?_, ?_⟩
    · rw [hre]
      exact List.length_take_le _ _
    · rw [hre]
      have hs := @List.sorted_mergeSort Product pop_le pop_le_trans pop_le_total
        (catalog.filter (fun p =>
          p.category == r.category && p.product_id != pid))
      have hp : (List.mergeSort (catalog.filter (fun p =>
          p.category == r.category && p.product_id != pid)) pop_le).Pairwise
          (fun a b => b.popularity_score ≤ a.popularity_score) := by
        refine hs.imp ?_
        intro a b hab
        simpa only [pop_le, decide_eq_true_eq] using hab
      exact List.Pairwise.sublist (List.take_sublist _ _) hp
    · intro p hp
      rw [hre] at hp
      have hp2 := List.take_subset _ _ hp
      have hp3 : p ∈ catalog.filter (fun p =>
          p.category == r.category && p.product_id != pid) :=
        ((List.mergeSort_perm _ _).mem_iff).1 hp2
      have hp4 := List.of_mem_filter hp3
      simp only [Bool.and_eq_true, beq_iff_eq, bne_iff_ne, ne_eq] at hp4
      exact ⟨hp4.1, hp4.2⟩

theorem C8_collaborative_witness :
    ((([] : List Product).find? (fun p => p.product_id == "ghost") = none
      ∧ collaborative_recommend [] "ghost" 5 = [])
    ∧ ([margherita, kale_bowl].find? (fun p => p.product_id == "P001")
        = some margherita
      ∧ ((collaborative_recommend [margherita, kale_bowl] "P001" 5).length ≤ 5
        ∧ (collaborative_recommend [margherita, kale_bowl] "P001" 5).Pairwise
            (fun a b => b.popularity_score ≤ a.popularity_score)
        ∧ ∀ p ∈ collaborative_recommend [margherita, kale_bowl] "P001" 5,
            p.category = margherita.category ∧ p.product_id ≠ "P001"))) :=
  ⟨⟨rfl, (C8_collaborative [] "ghost" 5).1 rfl⟩,
    ⟨by decide,
      (C8_collaborative [margherita, kale_bowl] "P001" 5).2 margherita
        (by decide)⟩⟩

end Foodie
